import Mathlib

/-!
# Verification of the LUE-LUE card game persistence layer

A shallow embedding of the server-side repository layer of the LUE-LUE
card-game application (Rust, Cloudflare D1 backend).  The database is
modelled as an explicit state record holding the rows of the five tables
(`players`, `claims`, `chats`, `chat_messages`, `cards`); every repository
method becomes a Lean function that takes the current state and returns a
Rust-style result together with the successor state.

Modelling conventions:

* The external query executor is assumed to execute each statement
  according to its SQL semantics (inserts append a row, deletes filter
  rows, selects filter and return rows).  Executor-level failures
  (network, decode) are not modelled; the error values produced by the
  repository code itself (not-found rows, invalid input, consistency
  violations) are modelled faithfully.
* Rust panics (out-of-bounds indexing) are modelled by a dedicated
  `RustResult.panicked` outcome, distinct from returning an `Err` value.
* String identifiers are Lean `String`s; row order in a table is the
  insertion order.
-/

namespace LueLue

/-- HTTP-style status classification carried by database errors
(`axum::http::StatusCode` restricted to the values the repositories use). -/
inductive Status where
  | internalServerError
  | notFound
  | badRequest
deriving DecidableEq, Repr

/-- The two error kinds of the backend: `DatabaseQueryError` (message plus
status classification; the optional echoed request payload is a pure
diagnostic and is not modelled) and `ProcessError` (message plus the name of
the originating operation). -/
inductive AppError where
  | dbError (message : String) (status : Status)
  | processError (message : String) (operation : String)
deriving DecidableEq, Repr

/-- Outcome of a Rust repository call: a returned `Ok` value, a returned
`Err` value, or a panic (the function neither returns nor produces a
`Result`). -/
inductive RustResult (α : Type) where
  | ok (val : α)
  | err (e : AppError)
  | panicked (message : String)
deriving DecidableEq, Repr

/-- Returns `true` iff the outcome is a returned `Err` value. -/
def RustResult.isErr {α : Type} : RustResult α → Bool
  | .err _ => true
  | _ => false

/-- Status carried by the outcome when it is a returned `Err` value. -/
def RustResult.errStatus {α : Type} : RustResult α → Option Status
  | .err (.dbError _ st) => some st
  | _ => none

/-- A row of the `cards` table: a card is owned either by a claim or by a
player (`card.claim_id` / `card.player_id`, both nullable). -/
structure Card where
  id : String
  claim_id : Option String
  player_id : Option String
deriving DecidableEq, Repr

/-- The `Player` entity: the scalar columns of the `players` table plus the
derived `assigned_cards` collection (hydrated at read time, not a column). -/
structure Player where
  id : String
  name : String
  game_id : String
  joined_at : String
  score : Nat
  last_time_update_requested : String
  assigned_cards : List Card
deriving DecidableEq, Repr

/-- The `Claim` entity as the Rust struct: id, creating player,
number of cards, and the owned card collection. -/
structure Claim where
  id : String
  created_by : String
  number_of_cards : Nat
  cards : List Card
deriving DecidableEq, Repr

/-- A row of the `claims` table.  The table carries a `game_id` column
(used by `get_all_claims` and `delete_all_claims_of_game`) that is not a
field of the Rust `Claim` struct, so a row is the struct data plus that
column (nullable: `create_claim` never binds it). -/
structure ClaimRow where
  row : Claim
  game_id : Option String
deriving DecidableEq, Repr

/-- The `ChatMessage` entity / a row of the `chat_messages` table. -/
structure ChatMessage where
  id : String
  player_id : String
  content : String
  sent_at : String
  chat_id : String
deriving DecidableEq, Repr

/-- A row of the `chats` table (scalar columns only — `messages` is a
derived collection). -/
structure ChatRow where
  id : String
  number_of_messages : Nat
  game_id : String
deriving DecidableEq, Repr

/-- The `Chat` aggregate as the Rust struct: scalar columns plus the
message collection (hydrated at read time, supplied by the caller in the
update DTO). -/
structure Chat where
  id : String
  number_of_messages : Nat
  game_id : String
  messages : List ChatMessage
deriving DecidableEq, Repr

/-- The partial-update payload for a game.  Only the fields read by the
reconciliation functions are modelled; the optional scalar-column fields
(`state`, `round_number`, `card_to_play`, `which_player_turn`) feed the
dynamic `UPDATE games` statement only and none of the verified functions
reads them. -/
structure UpdateGameDTO where
  id : String
  players : Option (List Player)
  claims : Option (List Claim)
  chat : Option Chat
deriving DecidableEq, Repr

/-- The database: one list of rows per table, in insertion order. -/
structure DBState where
  players : List Player
  claims : List ClaimRow
  chats : List ChatRow
  messages : List ChatMessage
  cards : List Card
deriving DecidableEq, Repr

/-! ## CardRepository

The card repository source file is not part of the provided sources; its
two operations used by the verified code are modelled from the spec. -/

/-- Modelled from the spec: `CardRepository::get_all_cards(claim_id,
player_id)` — "CRUD for cards, queryable by owner (claim or player)".
Returns the cards owned by the given claim, else by the given player, else
all cards. -/
def get_all_cards (claim_id : Option String) (player_id : Option String)
    (s : DBState) : List Card :=
  match claim_id with
  | some cid => s.cards.filter (fun c => c.claim_id = some cid)
  | none =>
    match player_id with
    | some pid => s.cards.filter (fun c => c.player_id = some pid)
    | none => s.cards

/-- Modelled from the spec: `CardRepository::update_card` with an
`UpdateCardDTO` carrying only a new `claim_id` — card ownership is
"reassigned via an update DTO rather than insert/delete", and a dynamic
`UPDATE…RETURNING` "fails with an internal error if the resulting row is
not found after the statement". -/
def update_card (card_id : String) (new_claim_id : Option String)
    (s : DBState) : RustResult Card × DBState :=
  match s.cards.find? (fun c => c.id = card_id) with
  | none =>
    (.err (.dbError "Failed to update card in the database"
      .internalServerError), s)
  | some c =>
    (RustResult.ok { c with claim_id := new_claim_id },
     { s with cards := s.cards.map (fun k =>
        if k.id = card_id then { k with claim_id := new_claim_id } else k) })

/-! ## ClaimsRepository -/

/-- Model of `ClaimsRepository::get_all_claims(game_id, player_id, card_repository)`:
select the claim rows (filtered by `game_id`, else by `created_by`), decode
them, and return them.  The source then builds
`extracted_claims.iter_mut().map(async |claim| …)` — a lazy iterator of
un-awaited futures that is never consumed — so the card-hydration queries
never execute and the rows are returned exactly as decoded. -/
def get_all_claims (game_id : Option String) (player_id : Option String)
    (s : DBState) : List Claim :=
  let rows : List ClaimRow :=
    match game_id with
    | some g => s.claims.filter (fun r => r.game_id = some g)
    | none =>
      match player_id with
      | some p => s.claims.filter (fun r => r.row.created_by = p)
      | none => s.claims
  rows.map (fun r => r.row)

/-- The row written by `create_claim`'s INSERT: it binds `id`,
`created_by` and `number_of_cards`; the `cards` column receives no bound
value and `game_id` is not in the column list, modelled as empty/NULL. -/
def insertedClaimRow (c : Claim) : ClaimRow :=
  { row := { id := c.id, created_by := c.created_by,
             number_of_cards := c.number_of_cards, cards := [] },
    game_id := none }

/-- The `for card in &claim.cards` loop of `create_claim`: each card of the
claim is re-assigned to the claim via `CardRepository::update_card`,
aborting on the first error. -/
def assignCardsLoop (claim_id : String) (cardsToAssign : List Card)
    (s : DBState) : RustResult Unit × DBState :=
  match cardsToAssign with
  | [] => (.ok (), s)
  | card :: rest =>
    match update_card card.id (some claim_id) s with
    | (.ok _, s1) => assignCardsLoop claim_id rest s1
    | (.err e, s1) => (.err e, s1)
    | (.panicked m, s1) => (.panicked m, s1)

/-- Model of `ClaimsRepository::create_claim(claim, card_repository)`: run the
INSERT, then re-assign each card of the claim, then return the claim. -/
def create_claim (c : Claim) (s : DBState) : RustResult Claim × DBState :=
  let s1 := { s with claims := s.claims ++ [insertedClaimRow c] }
  match assignCardsLoop c.id c.cards s1 with
  | (.ok _, s2) => (.ok c, s2)
  | (.err e, s2) => (.err e, s2)
  | (.panicked m, s2) => (.panicked m, s2)

/-- Model of `ClaimsRepository::delete_all_claims_of_game(game_id)`:
`DELETE FROM claims WHERE game_id = ?`. -/
def delete_all_claims_of_game (game_id : String) (s : DBState) :
    RustResult Unit × DBState :=
  (RustResult.ok (),
   { s with claims := s.claims.filter (fun r => ¬ r.game_id = some game_id) })

/-! ## GameRepository: claim reconciliation -/

/-- Rust's `Option::iter().len()`: the length of the iterator over the
*option* (`0` for `None`, `1` for `Some(_)`), regardless of what the
contained value is.  `update_claims_of_game` writes
`game_data.claims.iter().len() == 0` where `game_data.claims` is an
`Option<Vec<Claim>>`, so this — not the vector length — is what its
emptiness test computes. -/
def rustOptionIterLen {α : Type} : Option α → Nat
  | none => 0
  | some _ => 1

/-- Model of `GameRepository::update_claims_of_game(game_data, claims_repo,
card_repo)`: reject a missing claims field; test
`game_data.claims.iter().len() == 0` (see `rustOptionIterLen`) and delete
all claims of the game if it holds; otherwise insert
`game_data.claims.clone().unwrap()[1]` (a panic when the list has fewer
than two elements); finally return a fresh `get_all_claims` for the game. -/
def update_claims_of_game (dto : UpdateGameDTO) (s : DBState) :
    RustResult (List Claim) × DBState :=
  match dto.claims with
  | none =>
    (.err (.dbError
      "Function was called with invalid data passed to it! A new list of claims is mandatory!"
      .internalServerError), s)
  | some claimsList =>
    if rustOptionIterLen (some claimsList) = 0 then
      match delete_all_claims_of_game dto.id s with
      | (.ok _, s1) => (.ok (get_all_claims (some dto.id) none s1), s1)
      | (.err e, s1) => (.err e, s1)
      | (.panicked m, s1) => (.panicked m, s1)
    else
      match claimsList[1]? with
      | none =>
        (.panicked "index out of bounds: the index is 1", s)
      | some c =>
        match create_claim c s with
        | (.ok _, s1) => (.ok (get_all_claims (some dto.id) none s1), s1)
        | (.err e, s1) => (.err e, s1)
        | (.panicked m, s1) => (.panicked m, s1)

/-! ## PlayerRepository -/

/-- The per-row hydration step of `get_all_players`: attach the cards whose
`player_id` matches the player (one card query per player). -/
def hydratePlayer (s : DBState) (p : Player) : Player :=
  { p with assigned_cards := get_all_cards none (some p.id) s }

/-- Model of `PlayerRepository::get_all_players(game_id, card_repository)`: select
the player rows (filtered by `game_id` when given), hydrate each row's
`assigned_cards`, and map an empty result set to a Not-Found error instead
of returning an empty list. -/
def get_all_players (game_id : Option String) (s : DBState) :
    RustResult (List Player) :=
  let rows : List Player :=
    match game_id with
    | none => s.players
    | some g => s.players.filter (fun p => p.game_id = g)
  let hydrated := rows.map (hydratePlayer s)
  if hydrated.isEmpty then
    .err (.dbError "No players found" .notFound)
  else
    .ok hydrated

/-- The row written by `add_player`'s INSERT: it binds `id`, `name`,
`game_id` and `joined_at`; the remaining columns take the store defaults,
modelled as `0` / the empty string, and `assigned_cards` is a derived
collection (empty on a fresh row). -/
def insertedPlayerRow (p : Player) : Player :=
  { id := p.id, name := p.name, game_id := p.game_id,
    joined_at := p.joined_at, score := 0,
    last_time_update_requested := "", assigned_cards := [] }

/-- Model of `PlayerRepository::add_player(player)`:
`INSERT INTO players (id, name, game_id, joined_at) VALUES … RETURNING *`. -/
def add_player (p : Player) (s : DBState) : RustResult Player × DBState :=
  (RustResult.ok (insertedPlayerRow p),
   { s with players := s.players ++ [insertedPlayerRow p] })

/-- Model of `PlayerRepository::delete_player(player_id)`:
`DELETE FROM players WHERE id = ?` (no not-found check; `run()` only). -/
def delete_player (player_id : String) (s : DBState) :
    RustResult Unit × DBState :=
  (RustResult.ok (),
   { s with players := s.players.filter (fun q => ¬ q.id = player_id) })

/-! ## GameRepository: player reconciliation -/

/-- The first loop of `update_players_in_game`: iterate over the
pre-fetched current players and delete every one whose id does not occur in
the desired list. -/
def deletePlayersLoop (current : List Player) (newPlayers : List Player)
    (s : DBState) : RustResult Unit × DBState :=
  match current with
  | [] => (.ok (), s)
  | p :: rest =>
    match newPlayers.find? (fun q => q.id = p.id) with
    | some _ => deletePlayersLoop rest newPlayers s
    | none =>
      match delete_player p.id s with
      | (.ok _, s1) => deletePlayersLoop rest newPlayers s1
      | (.err e, s1) => (.err e, s1)
      | (.panicked m, s1) => (.panicked m, s1)

/-- The second loop of `update_players_in_game`: iterate over the desired
players and insert every one whose id does not occur in the pre-fetched
current list. -/
def insertPlayersLoop (newPlayers : List Player) (current : List Player)
    (s : DBState) : RustResult Unit × DBState :=
  match newPlayers with
  | [] => (.ok (), s)
  | p :: rest =>
    match current.find? (fun q => q.id = p.id) with
    | some _ => insertPlayersLoop rest current s
    | none =>
      match add_player p s with
      | (.ok _, s1) => insertPlayersLoop rest current s1
      | (.err e, s1) => (.err e, s1)
      | (.panicked m, s1) => (.panicked m, s1)

/-- Model of `GameRepository::update_players_in_game(game_data, player_repo,
card_repo)`: require a present, non-empty desired player list; fetch the
current players of the game; delete current players absent from the desired
list; insert desired players absent from the current list; return the
pre-fetched current list. -/
def update_players_in_game (dto : UpdateGameDTO) (s : DBState) :
    RustResult (List Player) × DBState :=
  match dto.players with
  | none =>
    (.err (.dbError
      "Function was called with invalid data passed to it! A new list of players is mandatory!"
      .internalServerError), s)
  | some newPlayers =>
    if newPlayers.length = 0 then
      (.err (.dbError
        "An empty list of players was provided! Thats an invalid data input!"
        .badRequest), s)
    else
      match get_all_players (some dto.id) s with
      | .err e => (.err e, s)
      | .panicked m => (.panicked m, s)
      | .ok current =>
        match deletePlayersLoop current newPlayers s with
        | (.ok _, s1) =>
          match insertPlayersLoop newPlayers current s1 with
          | (.ok _, s2) => (.ok current, s2)
          | (.err e, s2) => (.err e, s2)
          | (.panicked m, s2) => (.panicked m, s2)
        | (.err e, s1) => (.err e, s1)
        | (.panicked m, s1) => (.panicked m, s1)

/-! ## ChatMessageRepository -/

/-- Model of `ChatMessageRepository::delete_all_messages_in_chat(chat_id)`:
`DELETE FROM chat_messages WHERE chat_id = ?`. -/
def delete_all_messages_in_chat (chat_id : String) (s : DBState) :
    RustResult Unit × DBState :=
  (RustResult.ok (),
   { s with messages := s.messages.filter (fun m => ¬ m.chat_id = chat_id) })

/-- Model of `ChatMessageRepository::get_all_messages_in_chat(chat_id)`:
`SELECT * FROM chat_messages WHERE chat_id = ?` (the `ORDER BY` clause is
modelled as the stored order). -/
def get_all_messages_in_chat (chat_id : String) (s : DBState) :
    List ChatMessage :=
  s.messages.filter (fun m => m.chat_id = chat_id)

/-- Model of `ChatMessageRepository::delete_message_by_id(message_id)`:
`DELETE FROM chat_messages WHERE id = ? RETURNING *`; a missing row is a
Not-Found error. -/
def delete_message_by_id (message_id : String) (s : DBState) :
    RustResult ChatMessage × DBState :=
  match s.messages.find? (fun m => m.id = message_id) with
  | none => (.err (.dbError "Message not found" .notFound), s)
  | some m =>
    (RustResult.ok m,
     { s with messages := s.messages.filter (fun m2 => ¬ m2.id = message_id) })

/-- Model of `ChatMessageRepository::save_message(message)`:
`INSERT INTO chat_messages (id, player_id, content, sent_at, chat_id)
VALUES … RETURNING *`. -/
def save_message (m : ChatMessage) (s : DBState) :
    RustResult ChatMessage × DBState :=
  (RustResult.ok m, { s with messages := s.messages ++ [m] })

/-! ## ChatRepository -/

/-- Model of `ChatRepository::get_number_of_messages_of_chat(game_id, chat_id)`:
read the `number_of_messages` column of the chat row selected by `game_id`
(preferred) else by `chat_id`; a missing row is a Not-Found error, missing
arguments a process error. -/
def get_number_of_messages_of_chat (game_id : Option String)
    (chat_id : Option String) (s : DBState) : RustResult Nat :=
  match game_id with
  | some g =>
    match s.chats.find? (fun c => c.game_id = g) with
    | some c => .ok c.number_of_messages
    | none =>
      .err (.dbError
        s!"A Chat entry with the game id [{g}] was not in the database!"
        .notFound)
  | none =>
    match chat_id with
    | some cid =>
      match s.chats.find? (fun c => c.id = cid) with
      | some c => .ok c.number_of_messages
      | none =>
        .err (.dbError
          s!"The Chat instance with the id [{cid}] could not be found in the database!"
          .notFound)
    | none =>
      .err (.processError
        "Invalid data input! Atleast provide one argument like game_id or chat_id!"
        "ChatRepository::get_number_of_messages_of_chat")

/-- Model of `ChatRepository::update_number_of_messages_of_chat(n, chat_id,
game_id)`: `UPDATE chats SET number_of_messages = ? WHERE …
RETURNING number_of_messages`, filtered by `game_id` (preferred) else
`chat_id`; when no row is returned the function yields a process error. -/
def update_number_of_messages_of_chat (n : Nat) (chat_id : Option String)
    (game_id : Option String) (s : DBState) : RustResult Nat × DBState :=
  match game_id with
  | some g =>
    if (s.chats.find? (fun c => c.game_id = g)).isSome then
      (RustResult.ok n,
       { s with chats := s.chats.map (fun c =>
          if c.game_id = g then { c with number_of_messages := n } else c) })
    else
      (.err (.processError
        s!"The Chat object belonging to the game with the id [{g}] could not be found, therefore the number_of_messages could not be updated!"
        "ChatRepository::update_number_of_messages_of_chat"), s)
  | none =>
    match chat_id with
    | some cid =>
      if (s.chats.find? (fun c => c.id = cid)).isSome then
        (RustResult.ok n,
         { s with chats := s.chats.map (fun c =>
            if c.id = cid then { c with number_of_messages := n } else c) })
      else
        (.err (.processError
          s!"The Chat object with the id [{cid}] could not be found, therefore the number_of_messages could not be updated!"
          "ChatRepository::update_number_of_messages_of_chat"), s)
    | none =>
      (.err (.processError
        "An invalid data input was passed to the update_number_of_messages_of_chat function! At least pass either chat_id or game_id!"
        "ChatRepository::update_number_of_messages_of_chat"), s)

/-- Model of `ChatRepository::add_new_message_to_chat(chat_id, chat_message,
chat_message_repo)`: read the counter of the chat (by `chat_id`),
write back the counter plus one (the source only inspects this write for
executor errors, an absent row passes), then insert the message. -/
def add_new_message_to_chat (chat_id : String) (msg : ChatMessage)
    (s : DBState) : RustResult ChatMessage × DBState :=
  match get_number_of_messages_of_chat none (some chat_id) s with
  | .err e => (.err e, s)
  | .panicked m => (.panicked m, s)
  | .ok n =>
    let s1 : DBState :=
      { s with chats := s.chats.map (fun c =>
          if c.id = chat_id then { c with number_of_messages := n + 1 }
          else c) }
    save_message msg s1

/-- Model of `ChatRepository::remove_message_from_chat(chat_id, message_id,
chat_message_repo)`: read the counter (by `chat_id`); reject a zero counter
with a process error; write back the counter minus one and check the echoed
value; then delete the message row. -/
def remove_message_from_chat (chat_id : String) (message_id : String)
    (s : DBState) : RustResult ChatMessage × DBState :=
  match get_number_of_messages_of_chat none (some chat_id) s with
  | .err e => (.err e, s)
  | .panicked m => (.panicked m, s)
  | .ok n =>
    if n = 0 then
      (.err (.processError
        s!"The number of messages of the chat with the id [{chat_id}] cant be negative!"
        "ChatRepository::remove_message_from_chat"), s)
    else
      match update_number_of_messages_of_chat (n - 1) (some chat_id) none s with
      | (.err e, s1) => (.err e, s1)
      | (.panicked m, s1) => (.panicked m, s1)
      | (.ok newN, s1) =>
        if ¬ newN = n - 1 then
          (.err (.processError
            "The number_of_messages property hasnt changed after a successful operation!"
            "ChatRepository::remove_message_from_chat"), s1)
        else
          delete_message_by_id message_id s1

/-! ## GameRepository: chat reconciliation -/

/-- The ids collected by the first diff loop of `update_chat_of_game`:
the ids of the current messages of the chat that do not occur in the
desired message list. -/
def removedMessageIds (chat : Chat) (s : DBState) : List String :=
  ((get_all_messages_in_chat chat.id s).filter
    (fun cur => ¬ (chat.messages.find? (fun m => m.id = cur.id)).isSome)).map
    (fun m => m.id)

/-- The messages collected by the second diff loop of
`update_chat_of_game`: the desired messages whose id does not occur among
the current messages of the chat. -/
def newChatMessages (chat : Chat) (s : DBState) : List ChatMessage :=
  chat.messages.filter (fun m =>
    ¬ ((get_all_messages_in_chat chat.id s).find?
        (fun cur => cur.id = m.id)).isSome)

/-- The removal loop of `update_chat_of_game`: delete each collected id via
`delete_message_by_id`, aborting on the first error. -/
def deleteMessagesLoop (ids : List String) (s : DBState) :
    RustResult Unit × DBState :=
  match ids with
  | [] => (.ok (), s)
  | mid :: rest =>
    match delete_message_by_id mid s with
    | (.ok _, s1) => deleteMessagesLoop rest s1
    | (.err e, s1) => (.err e, s1)
    | (.panicked m, s1) => (.panicked m, s1)

/-- The insertion loop of `update_chat_of_game`: save each new message via
`save_message`, aborting on the first error. -/
def saveMessagesLoop (msgs : List ChatMessage) (s : DBState) :
    RustResult Unit × DBState :=
  match msgs with
  | [] => (.ok (), s)
  | m :: rest =>
    match save_message m s with
    | (.ok _, s1) => saveMessagesLoop rest s1
    | (.err e, s1) => (.err e, s1)
    | (.panicked msg, s1) => (.panicked msg, s1)

/-- Model of `GameRepository::update_chat_of_game(game_data, chat_repo,
chat_message_repo)`: reject a missing chat field; when the desired
`number_of_messages` is zero, delete all messages of the chat, write the
counter to zero and return the desired chat immediately; otherwise diff
desired vs. current messages by id, delete the removed ids, insert the new
messages and return the desired chat exactly as supplied. -/
def update_chat_of_game (dto : UpdateGameDTO) (s : DBState) :
    RustResult Chat × DBState :=
  match dto.chat with
  | none =>
    (.err (.dbError
      "Function was called with invalid data passed to it! A new chat object is mandatory!"
      .internalServerError), s)
  | some chat =>
    if chat.number_of_messages = 0 then
      match delete_all_messages_in_chat chat.id s with
      | (.ok _, s1) =>
        match update_number_of_messages_of_chat 0 (some chat.id) none s1 with
        | (.ok _, s2) => (.ok chat, s2)
        | (.err e, s2) => (.err e, s2)
        | (.panicked m, s2) => (.panicked m, s2)
      | (.err e, s1) => (.err e, s1)
      | (.panicked m, s1) => (.panicked m, s1)
    else
      match deleteMessagesLoop (removedMessageIds chat s) s with
      | (.ok _, s1) =>
        match saveMessagesLoop (newChatMessages chat s) s1 with
        | (.ok _, s2) => (.ok chat, s2)
        | (.err e, s2) => (.err e, s2)
        | (.panicked m, s2) => (.panicked m, s2)
      | (.err e, s1) => (.err e, s1)
      | (.panicked m, s1) => (.panicked m, s1)

/-- The counter invariant of the spec, as a decidable check: every chat
row's `number_of_messages` equals the number of message rows whose
`chat_id` is that chat. -/
def chatCounterOk (s : DBState) : Bool :=
  s.chats.all (fun c =>
    c.number_of_messages = (s.messages.filter
      (fun m => m.chat_id = c.id)).length)

/-! ## Characterizations of the reconciliation loops -/

/-- Survival predicate of the deletion loop of `update_players_in_game`:
a stored row `q` survives unless some pre-fetched current player `p` has
`q`'s id and no desired player carries `p`'s id. -/
def playerShouldSurvive (current : List Player) (newPlayers : List Player)
    (q : Player) : Bool :=
  ! current.any (fun p =>
      decide (q.id = p.id) &&
      (newPlayers.find? (fun d => d.id = p.id)).isNone)

/-- The rows appended by the insertion loop of `update_players_in_game`:
one `insertedPlayerRow` per desired player whose id does not occur among
the pre-fetched current players, in desired-list order. -/
def insertedPlayers (newPlayers : List Player) (current : List Player) :
    List Player :=
  (newPlayers.filter (fun d =>
    (current.find? (fun q => q.id = d.id)).isNone)).map insertedPlayerRow

/-! ## Concrete fixtures used by the evaluation theorems and witnesses -/

/-- A claim row of game `g1` already persisted. -/
def fixClaimRow : ClaimRow :=
  { row := { id := "cl1", created_by := "p1", number_of_cards := 3,
             cards := [] }, game_id := some "g1" }

/-- A database holding one claim of game `g1` and nothing else. -/
def fixClaimState : DBState :=
  { players := [], claims := [fixClaimRow], chats := [], messages := [],
    cards := [] }

/-- A DTO whose claims field is present and an empty list. -/
def fixDtoEmptyClaims : UpdateGameDTO :=
  { id := "g1", players := none, claims := some [], chat := none }

/-- A desired claim used in the singleton-list and two-element fixtures. -/
def fixClaimA : Claim :=
  { id := "cA", created_by := "p1", number_of_cards := 2, cards := [] }

/-- A second desired claim (the index-1 element of the two-element list). -/
def fixClaimB : Claim :=
  { id := "cB", created_by := "p2", number_of_cards := 4, cards := [] }

/-- A DTO whose claims field holds exactly one claim. -/
def fixDtoOneClaim : UpdateGameDTO :=
  { id := "g1", players := none, claims := some [fixClaimA], chat := none }

/-- A DTO whose claims field holds two claims. -/
def fixDtoTwoClaims : UpdateGameDTO :=
  { id := "g1", players := none, claims := some [fixClaimA, fixClaimB],
    chat := none }

/-- A persisted player of game `g1`. -/
def fixPlayer1 : Player :=
  { id := "p1", name := "Ann", game_id := "g1", joined_at := "t0",
    score := 0, last_time_update_requested := "", assigned_cards := [] }

/-- A desired player of game `g1` not yet persisted. -/
def fixPlayer2 : Player :=
  { id := "p2", name := "Bob", game_id := "g1", joined_at := "t1",
    score := 0, last_time_update_requested := "", assigned_cards := [] }

/-- A database holding exactly one player (of game `g1`). -/
def fixPlayerState : DBState :=
  { players := [fixPlayer1], claims := [], chats := [], messages := [],
    cards := [] }

/-- A database with no players at all. -/
def fixNoPlayerState : DBState :=
  { players := [], claims := [], chats := [], messages := [], cards := [] }

/-- A DTO whose desired player list is `[fixPlayer2]`. -/
def fixDtoPlayers : UpdateGameDTO :=
  { id := "g1", players := some [fixPlayer2], claims := none, chat := none }

/-- A DTO whose desired player list is present but empty. -/
def fixDtoEmptyPlayers : UpdateGameDTO :=
  { id := "g1", players := some [], claims := none, chat := none }

/-- A persisted chat message of chat `ch1`. -/
def fixMsg1 : ChatMessage :=
  { id := "m1", player_id := "p1", content := "hi", sent_at := "t0",
    chat_id := "ch1" }

/-- A desired chat message of chat `ch1` not yet persisted. -/
def fixMsg2 : ChatMessage :=
  { id := "m2", player_id := "p2", content := "yo", sent_at := "t1",
    chat_id := "ch1" }

/-- A database with chat `ch1` (counter 1) and its single message. -/
def fixChatState : DBState :=
  { players := [], claims := [],
    chats := [{ id := "ch1", number_of_messages := 1, game_id := "g1" }],
    messages := [fixMsg1], cards := [] }

/-- A desired chat for `ch1` with a non-zero counter and two messages. -/
def fixChatDesired : Chat :=
  { id := "ch1", number_of_messages := 5, game_id := "g1",
    messages := [fixMsg1, fixMsg2] }

/-- A DTO carrying `fixChatDesired`. -/
def fixDtoChat : UpdateGameDTO :=
  { id := "g1", players := none, claims := none, chat := some fixChatDesired }

/-- A desired chat for `ch1` with a zero counter. -/
def fixChatZero : Chat :=
  { id := "ch1", number_of_messages := 0, game_id := "g1", messages := [] }

/-- A DTO carrying `fixChatZero`. -/
def fixDtoChatZero : UpdateGameDTO :=
  { id := "g1", players := none, claims := none, chat := some fixChatZero }

/-- A database with chat `ch1` whose counter is zero and no messages. -/
def fixChatZeroState : DBState :=
  { players := [], claims := [],
    chats := [{ id := "ch1", number_of_messages := 0, game_id := "g1" }],
    messages := [], cards := [] }

/-- A card owned by claim `cl1`. -/
def fixCard1 : Card := { id := "k1", claim_id := some "cl1", player_id := none }

/-- A database with one claim of game `g1` that owns one card. -/
def fixHydrationState : DBState :=
  { players := [],
    claims := [{ row := { id := "cl1", created_by := "p1",
                          number_of_cards := 1, cards := [] },
                 game_id := some "g1" }],
    chats := [], messages := [], cards := [fixCard1] }

/-! ## Theorems -/

/-- C1. The claim says: for every `UpdateGameDTO` whose claims field is
present and an empty list, `update_claims_of_game` deletes all claims of
the game and returns an empty list.  The code contradicts its own comment
("when the array is empty, all claims in the list of the game will be
deleted"): its emptiness test is `game_data.claims.iter().len() == 0`,
which counts the `Option` (always `1` here), so the empty list falls into
the insertion branch and `claims.unwrap()[1]` panics.  Evaluation at the
failing input: nothing is deleted and the call panics instead of returning
the empty list. -/
theorem c1_empty_claims_list_panics :
    update_claims_of_game fixDtoEmptyClaims fixClaimState =
      (.panicked "index out of bounds: the index is 1", fixClaimState) ∧
    fixDtoEmptyClaims.claims = some [] ∧
    fixClaimState.claims = [fixClaimRow] := by
  exact ⟨rfl, rfl, rfl⟩

/-- C2 counterexample. The claim says a present, non-empty claims list
with fewer than two elements makes `update_claims_of_game` *return* an
out-of-bounds/process error as its `Result` without crashing.  At the
concrete input with exactly one desired claim the call panics — it does
not return an `Err` value. -/
theorem c2_single_claim_panics_not_err :
    (update_claims_of_game fixDtoOneClaim fixClaimState).1 =
      .panicked "index out of bounds: the index is 1" ∧
    RustResult.isErr (update_claims_of_game fixDtoOneClaim fixClaimState).1
      = false := by
  exact ⟨rfl, rfl⟩

/-- C2, amended. For every `UpdateGameDTO` whose claims field is
present, non-empty and shorter than two elements, `update_claims_of_game`
panics with an index-out-of-bounds (leaving the state unchanged); it does
not succeed and does not return an error `Result`. -/
theorem c2_short_claims_list_panics (dto : UpdateGameDTO) (s : DBState)
    (l : List Claim) (hcl : dto.claims = some l) (hne : l ≠ [])
    (hlen : l.length < 2) :
    update_claims_of_game dto s =
      (.panicked "index out of bounds: the index is 1", s) := by
  have h1 : l[1]? = none := by
    apply List.getElem?_eq_none
    omega
  simp [update_claims_of_game, hcl, rustOptionIterLen, h1]

/-- C2 witness. The amended theorem applied at a concrete input. -/
theorem c2_short_claims_list_panics_witness :
    update_claims_of_game fixDtoOneClaim fixClaimState =
      (.panicked "index out of bounds: the index is 1", fixClaimState) :=
  c2_short_claims_list_panics fixDtoOneClaim fixClaimState [fixClaimA]
    rfl (by decide) (by decide)

/-- C8. For every chat whose `number_of_messages` is `0`,
`remove_message_from_chat` returns the consistency (process) error and
performs no mutation: the returned state is exactly the input state. -/
theorem c8_remove_on_zero_counter_fails (chat_id message_id : String)
    (s : DBState) (c : ChatRow)
    (hfind : s.chats.find? (fun x => x.id = chat_id) = some c)
    (hzero : c.number_of_messages = 0) :
    remove_message_from_chat chat_id message_id s =
      (.err (.processError
        s!"The number of messages of the chat with the id [{chat_id}] cant be negative!"
        "ChatRepository::remove_message_from_chat"), s) := by
  simp [remove_message_from_chat, get_number_of_messages_of_chat, hfind,
    hzero]

/-- C8 witness. The theorem applied at a concrete chat with counter
zero. -/
theorem c8_remove_on_zero_counter_fails_witness :
    remove_message_from_chat "ch1" "m1" fixChatZeroState =
      (.err (.processError
        "The number of messages of the chat with the id [ch1] cant be negative!"
        "ChatRepository::remove_message_from_chat"), fixChatZeroState) :=
  c8_remove_on_zero_counter_fails "ch1" "m1" fixChatZeroState
    { id := "ch1", number_of_messages := 0, game_id := "g1" } rfl rfl

/-- C9. The claim says every successful `get_all_claims` hydrates each
returned claim's cards via the card repository.  The source builds
`iter_mut().map(async |claim| …)` — a lazy iterator of never-awaited
futures that is dropped unused — so the hydration queries never run,
contradicting the code's own comment ("get all cards in the claim").  At a
database where claim `cl1` of game `g1` owns card `k1`, the claim comes
back with an empty card list even though the card repository owns exactly
`k1` for it. -/
theorem c9_get_all_claims_does_not_hydrate :
    get_all_claims (some "g1") none fixHydrationState =
      [{ id := "cl1", created_by := "p1", number_of_cards := 1,
         cards := [] }] ∧
    get_all_cards (some "cl1") none fixHydrationState = [fixCard1] ∧
    ([] : List Card) ≠ [fixCard1] := by
  refine ⟨rfl, rfl, by decide⟩

/-- C10 counterexample. The claim says that on a game with zero
persisted players `update_players_in_game` always fails with the Not-Found
error *regardless of the desired player list*.  With a present but empty
desired list it fails earlier, with the Bad-Request invalid-input error,
not the Not-Found error. -/
theorem c10_empty_list_fails_with_bad_request :
    fixNoPlayerState.players.filter
      (fun p => p.game_id = fixDtoEmptyPlayers.id) = [] ∧
    (update_players_in_game fixDtoEmptyPlayers fixNoPlayerState).1 =
      .err (.dbError
        "An empty list of players was provided! Thats an invalid data input!"
        .badRequest) ∧
    RustResult.errStatus
      (update_players_in_game fixDtoEmptyPlayers fixNoPlayerState).1 ≠
      some Status.notFound := by
  refine ⟨rfl, rfl, by decide⟩

/-- C10, amended. `get_all_players` maps an empty result set to a
Not-Found error instead of returning an empty list; therefore, on a game
with zero persisted players, `update_players_in_game` always fails and
leaves the state unchanged — with that Not-Found error whenever the desired
player list is present and non-empty, and with a mandatory-field /
invalid-input error when it is absent or empty — so players can never be
added to a player-less game through the update path. -/
theorem c10_playerless_game_update_always_fails (dto : UpdateGameDTO)
    (s : DBState)
    (h : s.players.filter (fun p => p.game_id = dto.id) = []) :
    get_all_players (some dto.id) s =
      .err (.dbError "No players found" .notFound) ∧
    RustResult.isErr (update_players_in_game dto s).1 = true ∧
    (update_players_in_game dto s).2 = s ∧
    (∀ D : List Player, dto.players = some D → D ≠ [] →
      update_players_in_game dto s =
        (.err (.dbError "No players found" .notFound), s)) := by
  have hget : get_all_players (some dto.id) s =
      .err (.dbError "No players found" .notFound) := by
    simp [get_all_players, h]
  refine ⟨hget, ?_, ?_, ?_⟩
  · cases hD : dto.players with
    | none => simp [update_players_in_game, hD, RustResult.isErr]
    | some D =>
      by_cases hlen : D.length = 0
      · simp [update_players_in_game, hD, hlen, RustResult.isErr]
      · simp [update_players_in_game, hD, hlen, hget, RustResult.isErr]
  · cases hD : dto.players with
    | none => simp [update_players_in_game, hD]
    | some D =>
      by_cases hlen : D.length = 0
      · simp [update_players_in_game, hD, hlen]
      · simp [update_players_in_game, hD, hlen, hget]
  · intro D hD hne
    have hlen : ¬ D.length = 0 := by
      simpa [List.length_eq_zero] using hne
    simp [update_players_in_game, hD, hlen, hget]

/-- C10 witness. The amended theorem applied at a zero-player game with
a non-empty desired list. -/
theorem c10_playerless_game_update_always_fails_witness :
    update_players_in_game fixDtoPlayers fixNoPlayerState =
      (.err (.dbError "No players found" .notFound), fixNoPlayerState) :=
  (c10_playerless_game_update_always_fails fixDtoPlayers fixNoPlayerState
    rfl).2.2.2 [fixPlayer2] rfl (by decide)

/-- C7 counterexample. The claim says the `number_of_messages` column
equals the stored row count after every successful mutation, including the
chat-reconciliation path of `update_chat_of_game`.  The non-zero branch of
that path never writes the counter: reconciling chat `ch1` (stored counter
`1`, one stored message) against a desired chat with two messages succeeds,
stores two rows, and leaves the counter at `1`. -/
theorem c7_reconciliation_breaks_counter :
    chatCounterOk fixChatState = true ∧
    (update_chat_of_game fixDtoChat fixChatState).1 = .ok fixChatDesired ∧
    chatCounterOk (update_chat_of_game fixDtoChat fixChatState).2 =
      false := by
  exact ⟨rfl, rfl, rfl⟩

/-- The deletion loop of `update_players_in_game` always succeeds and
filters the stored players by `playerShouldSurvive`. -/
theorem deletePlayersLoop_eq (current newPlayers : List Player) :
    ∀ s : DBState, deletePlayersLoop current newPlayers s =
      (.ok (), { s with players :=
        s.players.filter (playerShouldSurvive current newPlayers) }) := by
  induction current with
  | nil =>
    intro s
    have h : List.filter (playerShouldSurvive [] newPlayers) s.players =
        s.players :=
      List.filter_eq_self.mpr (fun a _ => by simp [playerShouldSurvive])
    simp [deletePlayersLoop, h]
  | cons p rest ih =>
    intro s
    cases hfind : newPlayers.find? (fun d => d.id = p.id) with
    | some d =>
      have hpred : ∀ q ∈ s.players,
          playerShouldSurvive rest newPlayers q =
          playerShouldSurvive (p :: rest) newPlayers q := by
        intro q _
        simp [playerShouldSurvive, hfind, List.any_cons]
      simp only [deletePlayersLoop, hfind, ih]
      rw [List.filter_congr hpred]
    | none =>
      have hpred : ∀ q ∈ s.players,
          (playerShouldSurvive rest newPlayers q &&
            decide (¬ q.id = p.id)) =
          playerShouldSurvive (p :: rest) newPlayers q := by
        intro q _
        simp [playerShouldSurvive, hfind, List.any_cons, Bool.not_or,
          decide_not, Bool.and_comm]
      simp only [deletePlayersLoop, hfind, delete_player, ih,
        List.filter_filter]
      rw [List.filter_congr hpred]

/-- The insertion loop of `update_players_in_game` always succeeds and
appends exactly `insertedPlayers`. -/
theorem insertPlayersLoop_eq (newPlayers current : List Player) :
    ∀ s : DBState, insertPlayersLoop newPlayers current s =
      (.ok (), { s with players :=
        s.players ++ insertedPlayers newPlayers current }) := by
  induction newPlayers with
  | nil =>
    intro s
    simp [insertPlayersLoop, insertedPlayers]
  | cons p rest ih =>
    intro s
    cases hfind : current.find? (fun q => q.id = p.id) with
    | some q =>
      simp [insertPlayersLoop, hfind, ih, insertedPlayers,
        List.filter_cons_of_neg]
    | none =>
      simp [insertPlayersLoop, hfind, add_player, ih, insertedPlayers,
        List.filter_cons_of_pos]

/-- Successful run of `update_players_in_game`: with a present non-empty
desired list and a successful current-player fetch, the call returns the
pre-fetched list and the stored players become the survivors of the
deletion loop followed by the rows of the insertion loop. -/
theorem update_players_run (dto : UpdateGameDTO) (s : DBState)
    (D current : List Player) (hD : dto.players = some D)
    (hne : ¬ D.length = 0)
    (hcur : get_all_players (some dto.id) s = .ok current) :
    update_players_in_game dto s = (.ok current,
      { s with players :=
          s.players.filter (playerShouldSurvive current D) ++
          insertedPlayers D current }) := by
  simp [update_players_in_game, hD, hne, hcur, deletePlayersLoop_eq,
    insertPlayersLoop_eq]

/-- The save loop of the chat reconciliation always succeeds and appends
its messages. -/
theorem saveMessagesLoop_eq (msgs : List ChatMessage) :
    ∀ s : DBState, saveMessagesLoop msgs s =
      (.ok (), { s with messages := s.messages ++ msgs }) := by
  induction msgs with
  | nil => intro s; simp [saveMessagesLoop]
  | cons m rest ih => intro s; simp [saveMessagesLoop, save_message, ih]

/-- The delete loop of the chat reconciliation: when the requested ids are
distinct and each is the id of a stored message row, every deletion finds
its row and the loop filters those ids out of the table. -/
theorem deleteMessagesLoop_eq (ids : List String) :
    ∀ s : DBState, ids.Nodup →
      (∀ mid ∈ ids, ∃ m ∈ s.messages, m.id = mid) →
      deleteMessagesLoop ids s =
        (.ok (), { s with messages :=
          s.messages.filter (fun m => ¬ m.id ∈ ids) }) := by
  induction ids with
  | nil =>
    intro s _ _
    simp [deleteMessagesLoop]
  | cons mid rest ih =>
    intro s hnd hex
    obtain ⟨m, hm, hmid⟩ := hex mid (List.mem_cons_self mid rest)
    have hfind : (s.messages.find? (fun m2 => m2.id = mid)).isSome := by
      rw [List.find?_isSome]
      exact ⟨m, hm, by simp [hmid]⟩
    obtain ⟨m0, hm0⟩ := Option.isSome_iff_exists.mp hfind
    have hrest : ∀ mid2 ∈ rest,
        ∃ m2 ∈ (s.messages.filter (fun m2 => ¬ m2.id = mid)),
          m2.id = mid2 := by
      intro mid2 hmid2
      obtain ⟨m2, hm2, hm2id⟩ := hex mid2 (List.mem_cons_of_mem _ hmid2)
      refine ⟨m2, ?_, hm2id⟩
      rw [List.mem_filter]
      refine ⟨hm2, ?_⟩
      have : ¬ mid2 = mid := by
        intro hcontra
        exact (List.nodup_cons.mp hnd).1 (hcontra ▸ hmid2)
      simp [hm2id, this]
    have hpred : ∀ m2 ∈ s.messages,
        (decide (¬ m2.id ∈ rest) && decide (¬ m2.id = mid)) =
        decide (¬ m2.id ∈ mid :: rest) := by
      intro m2 _
      by_cases h1 : m2.id = mid <;> by_cases h2 : m2.id ∈ rest <;>
        simp [h1, h2]
    have hih := ih
      { s with messages := s.messages.filter (fun m2 => ¬ m2.id = mid) }
      (List.nodup_cons.mp hnd).2 hrest
    simp only [deleteMessagesLoop, delete_message_by_id, hm0, hih,
      List.filter_filter]
    rw [List.filter_congr hpred]

/-- C5. On success, `update_players_in_game` returns exactly the
player list fetched by `get_all_players` on the state *before* any
deletions or insertions — the pre-update snapshot, not the reconciled
player set. -/
theorem c5_returns_pre_update_snapshot (dto : UpdateGameDTO) (s : DBState)
    (D current : List Player) (hD : dto.players = some D) (hne : D ≠ [])
    (hcur : get_all_players (some dto.id) s = .ok current) :
    (update_players_in_game dto s).1 = .ok current := by
  have hne' : ¬ D.length = 0 := by
    simpa [List.length_eq_zero] using hne
  rw [update_players_run dto s D current hD hne' hcur]

/-- C5 witness. The theorem at a concrete game: current = `{P1}`,
desired = `[P2]`; the call returns the pre-deletion snapshot `[P1]`
although the reconciled set is `{P2}`. -/
theorem c5_returns_pre_update_snapshot_witness :
    (update_players_in_game fixDtoPlayers fixPlayerState).1 =
      .ok [fixPlayer1] :=
  c5_returns_pre_update_snapshot fixDtoPlayers fixPlayerState
    [fixPlayer2] [fixPlayer1] rfl (by decide) (by decide)

/-- The card re-assignment loop of `create_claim` succeeds whenever every
card id occurs in the cards table; it touches only the cards table and
preserves the ids stored there. -/
theorem assignCardsLoop_ok (claim_id : String) (cardsToAssign : List Card) :
    ∀ s : DBState, (∀ k ∈ cardsToAssign, k.id ∈ s.cards.map Card.id) →
      ∃ s', assignCardsLoop claim_id cardsToAssign s = (.ok (), s') ∧
        s'.players = s.players ∧ s'.claims = s.claims ∧
        s'.chats = s.chats ∧ s'.messages = s.messages ∧
        s'.cards.map Card.id = s.cards.map Card.id := by
  induction cardsToAssign with
  | nil =>
    intro s _
    exact ⟨s, rfl, rfl, rfl, rfl, rfl, rfl⟩
  | cons k rest ih =>
    intro s hex
    have hk : k.id ∈ s.cards.map Card.id :=
      hex k (List.mem_cons_self k rest)
    obtain ⟨k0, hk0, hk0id⟩ := List.mem_map.mp hk
    have hfind : (s.cards.find? (fun c => c.id = k.id)).isSome := by
      rw [List.find?_isSome]
      exact ⟨k0, hk0, by simp [hk0id]⟩
    obtain ⟨c0, hc0⟩ := Option.isSome_iff_exists.mp hfind
    set s1 : DBState :=
      { s with cards := s.cards.map (fun c =>
          if c.id = k.id then { c with claim_id := some claim_id }
          else c) } with hs1
    have hids : s1.cards.map Card.id = s.cards.map Card.id := by
      rw [hs1]
      simp only [List.map_map]
      apply List.map_congr_left
      intro c _
      by_cases h : c.id = k.id <;> simp [h]
    obtain ⟨s', hloop, hp, hcl, hch, hme, hca⟩ := ih s1 (by
      intro k2 hk2
      rw [hids]
      exact hex k2 (List.mem_cons_of_mem _ hk2))
    refine ⟨s', ?_, hp, hcl, hch, hme, by rw [hca, hids]⟩
    simp only [assignCardsLoop, update_card, hc0, hloop]

/-- C3. For every `UpdateGameDTO` whose claims field is present with at
least two elements (index `1` exists), `update_claims_of_game` inserts
exactly the element at index `1` as a new claim — the claims table grows by
exactly that one row and no other — and returns a fresh `get_all_claims`
for the game evaluated on the final state, i.e. all claims persisted for
that game, not merely the inserted one.  (The cards of the inserted claim
are re-assigned in the cards table; the hypothesis that their ids exist in
the cards table makes that re-assignment succeed.) -/
theorem c3_inserts_index_one_and_refetches (dto : UpdateGameDTO)
    (s : DBState) (l : List Claim) (c : Claim)
    (hcl : dto.claims = some l) (hc : l[1]? = some c)
    (hcards : ∀ k ∈ c.cards, k.id ∈ s.cards.map Card.id) :
    ∃ s', update_claims_of_game dto s =
        (.ok (get_all_claims (some dto.id) none s'), s') ∧
      s'.claims = s.claims ++ [insertedClaimRow c] ∧
      s'.players = s.players ∧ s'.chats = s.chats ∧
      s'.messages = s.messages := by
  set s1 : DBState := { s with claims := s.claims ++ [insertedClaimRow c] }
    with hs1
  obtain ⟨s', hloop, hp, hclaims, hch, hme, _⟩ :=
    assignCardsLoop_ok c.id c.cards s1 (by
      intro k hk
      exact hcards k hk)
  refine ⟨s', ?_, ?_, ?_, ?_, ?_⟩
  · simp only [update_claims_of_game, hcl, rustOptionIterLen, hc,
      create_claim, ← hs1, hloop]
    simp
  · rw [hclaims, hs1]
  · rw [hp, hs1]
  · rw [hch, hs1]
  · rw [hme, hs1]

/-- C3 witness. The theorem at a concrete two-element desired list:
the second element (`fixClaimB`, index 1) is inserted and the fresh
re-fetch for the game is returned. -/
theorem c3_inserts_index_one_and_refetches_witness :
    ∃ s', update_claims_of_game fixDtoTwoClaims fixClaimState =
        (.ok (get_all_claims (some fixDtoTwoClaims.id) none s'), s') ∧
      s'.claims = fixClaimState.claims ++ [insertedClaimRow fixClaimB] ∧
      s'.players = fixClaimState.players ∧ s'.chats = fixClaimState.chats ∧
      s'.messages = fixClaimState.messages :=
  c3_inserts_index_one_and_refetches fixDtoTwoClaims fixClaimState
    [fixClaimA, fixClaimB] fixClaimB rfl rfl (by decide)

/-- C6. `update_chat_of_game` fails when the DTO's chat field is
absent; with a desired chat whose `number_of_messages` is zero it deletes
all messages of the chat, writes the counter to zero and returns the
desired chat immediately; otherwise it deletes every current message of
the chat whose id is absent from the desired list (`removedMessageIds`),
inserts every desired message whose id is absent from the current list
(`newChatMessages`), and returns the desired chat object exactly as
supplied — no re-fetch. -/
theorem c6_chat_reconciliation (dto : UpdateGameDTO) (s : DBState) :
    (dto.chat = none →
      update_chat_of_game dto s =
        (.err (.dbError
          "Function was called with invalid data passed to it! A new chat object is mandatory!"
          .internalServerError), s)) ∧
    (∀ chat : Chat, dto.chat = some chat → chat.number_of_messages = 0 →
      (∃ c ∈ s.chats, c.id = chat.id) →
      update_chat_of_game dto s = (.ok chat,
        { s with
          chats := s.chats.map (fun c =>
            if c.id = chat.id then { c with number_of_messages := 0 }
            else c),
          messages :=
            s.messages.filter (fun m => ¬ m.chat_id = chat.id) })) ∧
    (∀ chat : Chat, dto.chat = some chat →
      ¬ chat.number_of_messages = 0 →
      (s.messages.map ChatMessage.id).Nodup →
      update_chat_of_game dto s = (.ok chat,
        { s with messages :=
            (s.messages.filter (fun m => ¬ m.id ∈ removedMessageIds chat s))
              ++ newChatMessages chat s })) := by
  refine ⟨?_, ?_, ?_⟩
  · intro h
    simp [update_chat_of_game, h]
  · intro chat hchat h0 hex
    have hfind : (s.chats.find? (fun c => c.id = chat.id)).isSome := by
      rw [List.find?_isSome]
      obtain ⟨c, hc, hcid⟩ := hex
      exact ⟨c, hc, by simp [hcid]⟩
    simp [update_chat_of_game, hchat, h0, delete_all_messages_in_chat,
      update_number_of_messages_of_chat, hfind]
  · intro chat hchat h0 hnd
    have hsub : removedMessageIds chat s ⊆
        (s.messages.map ChatMessage.id) := by
      intro mid hmid
      obtain ⟨m, hm, hmid'⟩ := List.mem_map.mp hmid
      have hm' : m ∈ s.messages :=
        List.mem_of_mem_filter (List.mem_of_mem_filter hm)
      exact hmid' ▸ List.mem_map_of_mem ChatMessage.id hm'
    have hndrem : (removedMessageIds chat s).Nodup := by
      have hsl : ((get_all_messages_in_chat chat.id s).filter
          (fun cur =>
            ¬ (chat.messages.find? (fun m => m.id = cur.id)).isSome)).Sublist
          s.messages :=
        (List.filter_sublist _).trans (List.filter_sublist _)
      exact (hnd.sublist (hsl.map ChatMessage.id))
    have hexists : ∀ mid ∈ removedMessageIds chat s,
        ∃ m ∈ s.messages, m.id = mid := by
      intro mid hmid
      obtain ⟨m, hm, hmid'⟩ := List.mem_map.mp hmid
      exact ⟨m, List.mem_of_mem_filter (List.mem_of_mem_filter hm), hmid'⟩
    have hdel := deleteMessagesLoop_eq (removedMessageIds chat s) s
      hndrem hexists
    simp [update_chat_of_game, hchat, h0, hdel, saveMessagesLoop_eq]

/-- C6 witness. The zero-counter branch applied to chat `ch1` (all
messages deleted, counter zeroed, desired chat returned) and the diff
branch applied to a desired chat `[m1, m2]` against stored `[m1]` (`m2`
inserted, nothing deleted, desired chat returned as supplied). -/
theorem c6_chat_reconciliation_witness :
    update_chat_of_game fixDtoChatZero fixChatState = (.ok fixChatZero,
      { fixChatState with
        chats := [{ id := "ch1", number_of_messages := 0,
                    game_id := "g1" }],
        messages := [] }) ∧
    update_chat_of_game fixDtoChat fixChatState = (.ok fixChatDesired,
      { fixChatState with messages := [fixMsg1, fixMsg2] }) := by
  constructor
  · have h := ((c6_chat_reconciliation fixDtoChatZero fixChatState).2.1)
      fixChatZero rfl rfl
      ⟨{ id := "ch1", number_of_messages := 1, game_id := "g1" },
        by decide, rfl⟩
    rw [h]
    decide
  · have h := ((c6_chat_reconciliation fixDtoChat fixChatState).2.2)
      fixChatDesired rfl (by decide) (by decide)
    rw [h]
    decide

/-- Removing the (unique, by id-nodup) row carrying id `mid` from a
message list shortens it by exactly one. -/
theorem filter_remove_id_length (mid : String) (m : ChatMessage) :
    ∀ l : List ChatMessage, (l.map ChatMessage.id).Nodup → m ∈ l →
      m.id = mid →
      (l.filter (fun m2 => ¬ m2.id = mid)).length + 1 = l.length := by
  intro l
  induction l with
  | nil => intro _ hm _; cases hm
  | cons h t ih =>
    intro hnd hm hmid
    rw [List.map_cons] at hnd
    have htn : (t.map ChatMessage.id).Nodup := hnd.of_cons
    have hhead : ¬ h.id ∈ t.map ChatMessage.id :=
      (List.nodup_cons.mp hnd).1
    by_cases hh : h.id = mid
    · have hnotin : ∀ a ∈ t, ¬ a.id = mid := by
        intro a ha hamid
        exact hhead (by
          rw [hh, ← hamid]
          exact List.mem_map_of_mem ChatMessage.id ha)
      rw [List.filter_cons_of_neg (by simp [hh])]
      rw [List.filter_eq_self.mpr (fun a ha => by simpa using hnotin a ha)]
      simp
    · rw [List.filter_cons_of_pos (by simp [hh])]
      have hm_t : m ∈ t := by
        cases List.mem_cons.mp hm with
        | inl h' => exact absurd (h' ▸ hmid) hh
        | inr h' => exact h'
      have := ih htn hm_t hmid
      simp only [List.length_cons]
      omega

/-- Two filters over a message list commute. -/
theorem filter_message_commute (l : List ChatMessage)
    (p q : ChatMessage → Bool) :
    (l.filter p).filter q = (l.filter q).filter p := by
  rw [List.filter_filter, List.filter_filter]
  exact List.filter_congr (fun a _ => Bool.and_comm _ _)

/-- C7, amended. The counter invariant `number_of_messages = |rows|`
(`chatCounterOk`) is preserved by every successful
`add_new_message_to_chat` whose message belongs to the target chat and by
every successful `remove_message_from_chat` whose message id is stored in
the target chat (chat and message ids being unique); the
chat-reconciliation path of `update_chat_of_game`, however, never writes
the counter in its non-zero branch and can leave the invariant broken even
on success (see the counterexample). -/
theorem c7_add_remove_preserve_counter :
    (∀ (chat_id : String) (msg : ChatMessage) (s : DBState)
        (r : ChatMessage) (s' : DBState),
      chatCounterOk s = true →
      (s.chats.map ChatRow.id).Nodup →
      msg.chat_id = chat_id →
      add_new_message_to_chat chat_id msg s = (.ok r, s') →
      chatCounterOk s' = true) ∧
    (∀ (chat_id message_id : String) (s : DBState)
        (r : ChatMessage) (s' : DBState),
      chatCounterOk s = true →
      (s.chats.map ChatRow.id).Nodup →
      (s.messages.map ChatMessage.id).Nodup →
      (∃ m ∈ s.messages, m.id = message_id ∧ m.chat_id = chat_id) →
      remove_message_from_chat chat_id message_id s = (.ok r, s') →
      chatCounterOk s' = true) := by
  constructor
  · intro chat_id msg s r s' hinv hnd hmsg hsucc
    cases hfind : s.chats.find? (fun c => c.id = chat_id) with
    | none =>
      simp [add_new_message_to_chat, get_number_of_messages_of_chat,
        hfind] at hsucc
    | some c =>
      have hc_mem : c ∈ s.chats := List.mem_of_find?_eq_some hfind
      have hc_id : c.id = chat_id := by
        simpa using List.find?_some hfind
      simp only [add_new_message_to_chat, get_number_of_messages_of_chat,
        hfind, save_message, Prod.mk.injEq, RustResult.ok.injEq] at hsucc
      obtain ⟨_, hs'⟩ := hsucc
      subst hs'
      simp only [chatCounterOk, List.all_eq_true, decide_eq_true_eq]
        at hinv ⊢
      intro c' hc'
      obtain ⟨c0, hc0, hc0eq⟩ := List.mem_map.mp hc'
      subst hc0eq
      have hcount := hinv c0 hc0
      by_cases h0 : c0.id = chat_id
      · have hcc0 : c = c0 :=
          List.inj_on_of_nodup_map hnd hc_mem hc0 (by rw [hc_id, h0])
        subst hcc0
        rw [if_pos h0]
        have hone : (List.filter (fun m => decide (m.chat_id = c.id))
            [msg]).length = 1 := by
          simp [hmsg, h0]
        simp only [List.filter_append, List.length_append, hone]
        omega
      · rw [if_neg h0]
        have hzero : (List.filter (fun m => decide (m.chat_id = c0.id))
            [msg]).length = 0 := by
          simp [hmsg]
          intro hcontra
          exact absurd hcontra.symm h0
        simp only [List.filter_append, List.length_append, hzero]
        omega
  · intro chat_id message_id s r s' hinv hndc hndm hmem hsucc
    obtain ⟨m, hm_mem, hm_id, hm_chat⟩ := hmem
    cases hfind : s.chats.find? (fun c => c.id = chat_id) with
    | none =>
      simp [remove_message_from_chat, get_number_of_messages_of_chat,
        hfind] at hsucc
    | some c =>
      have hc_mem : c ∈ s.chats := List.mem_of_find?_eq_some hfind
      have hc_id : c.id = chat_id := by
        simpa using List.find?_some hfind
      by_cases hn0 : c.number_of_messages = 0
      · simp [remove_message_from_chat, get_number_of_messages_of_chat,
          hfind, hn0] at hsucc
      · have hupd : (s.chats.find? (fun cc => cc.id = chat_id)).isSome =
            true := by simp [hfind]
        have hmfind : (s.messages.find? (fun m2 => m2.id = message_id)) =
            some m := by
          cases hm0 : s.messages.find? (fun m2 => m2.id = message_id) with
          | none =>
            exact absurd (List.find?_eq_none.mp hm0 m hm_mem)
              (by simp [hm_id])
          | some m0 =>
            have hm0_mem : m0 ∈ s.messages :=
              List.mem_of_find?_eq_some hm0
            have hm0_id : m0.id = message_id := by
              simpa using List.find?_some hm0
            rw [List.inj_on_of_nodup_map hndm hm0_mem hm_mem
              (by rw [hm0_id, hm_id])]
        have hrun : remove_message_from_chat chat_id message_id s =
            (.ok m,
             { s with
               chats := s.chats.map (fun c1 =>
                 if c1.id = chat_id then
                   { c1 with number_of_messages :=
                       c.number_of_messages - 1 }
                 else c1),
               messages := s.messages.filter
                 (fun m2 => ¬ m2.id = message_id) }) := by
          simp [remove_message_from_chat, get_number_of_messages_of_chat,
            hfind, hn0, update_number_of_messages_of_chat,
            delete_message_by_id, hmfind]
        rw [hrun] at hsucc
        simp only [Prod.mk.injEq, RustResult.ok.injEq] at hsucc
        obtain ⟨_, hs'⟩ := hsucc
        subst hs'
        simp only [chatCounterOk, List.all_eq_true, decide_eq_true_eq]
          at hinv ⊢
        intro c' hc'
        obtain ⟨c0, hc0, hc0eq⟩ := List.mem_map.mp hc'
        subst hc0eq
        have hcount := hinv c0 hc0
        by_cases h0 : c0.id = chat_id
        · have hcc0 : c = c0 :=
            List.inj_on_of_nodup_map hndc hc_mem hc0 (by rw [hc_id, h0])
          subst hcc0
          rw [if_pos h0]
          dsimp only
          rw [filter_message_commute]
          have hbase_nd : ((s.messages.filter
              (fun m2 => decide (m2.chat_id = c.id))).map
              ChatMessage.id).Nodup :=
            hndm.sublist ((List.filter_sublist _).map ChatMessage.id)
          have hm_base : m ∈ s.messages.filter
              (fun m2 => decide (m2.chat_id = c.id)) := by
            rw [List.mem_filter]
            exact ⟨hm_mem, by simp [hm_chat, h0]⟩
          have hrem := filter_remove_id_length message_id m
            (s.messages.filter (fun m2 => decide (m2.chat_id = c.id)))
            hbase_nd hm_base hm_id
          omega
        · rw [if_neg h0]
          rw [filter_message_commute]
          have hall : ∀ a ∈ s.messages.filter
              (fun m2 => decide (m2.chat_id = c0.id)),
              decide (¬ a.id = message_id) = true := by
            intro a ha
            rw [List.mem_filter] at ha
            obtain ⟨ha_mem, ha_chat⟩ := ha
            simp only [decide_eq_true_eq] at ha_chat ⊢
            intro haid
            have ham : a = m :=
              List.inj_on_of_nodup_map hndm ha_mem hm_mem
                (by rw [haid, hm_id])
            rw [ham] at ha_chat
            rw [hm_chat] at ha_chat
            exact h0 ha_chat.symm
          rw [List.filter_eq_self.mpr hall]
          exact hcount

/-- C7 witness. The amended theorem applied concretely: adding `m1` to
chat `ch1` (counter `0 → 1`) and removing `m1` from chat `ch1` (counter
`1 → 0`) both leave the counter equal to the row count. -/
theorem c7_add_remove_preserve_counter_witness :
    chatCounterOk (add_new_message_to_chat "ch1" fixMsg1
      fixChatZeroState).2 = true ∧
    chatCounterOk (remove_message_from_chat "ch1" "m1" fixChatState).2 =
      true := by
  constructor
  · exact c7_add_remove_preserve_counter.1 "ch1" fixMsg1 fixChatZeroState
      fixMsg1 _ (by decide) (by decide) rfl rfl
  · exact c7_add_remove_preserve_counter.2 "ch1" "m1" fixChatState
      fixMsg1 _ (by decide) (by decide) (by decide)
      ⟨fixMsg1, by decide, rfl, rfl⟩ rfl

/-- A stored player row survives the deletion loop iff every pre-fetched
current player carrying its id also occurs (by id) in the desired list. -/
theorem playerShouldSurvive_iff (cur D : List Player) (q : Player) :
    playerShouldSurvive cur D q = true ↔
      ∀ p ∈ cur, q.id = p.id → ∃ d ∈ D, d.id = p.id := by
  simp only [playerShouldSurvive, Bool.not_eq_true', List.any_eq_false]
  constructor
  · intro h p hp hid
    have h' := h p hp
    rw [Bool.and_eq_true] at h'
    cases hfind : D.find? (fun d => d.id = p.id) with
    | none => exact absurd ⟨by simp [hid], by simp [hfind]⟩ h'
    | some d =>
      exact ⟨d, List.mem_of_find?_eq_some hfind, by
        simpa using List.find?_some hfind⟩
  · intro h p hp
    by_cases hid : q.id = p.id
    · cases hfind : D.find? (fun d => d.id = p.id) with
      | none =>
        obtain ⟨d, hd, hdid⟩ := h p hp hid
        exact absurd (List.find?_eq_none.mp hfind d hd) (by simp [hdid])
      | some d2 => simp [hfind]
    · simp [hid]

/-- Membership in the insertion-loop output. -/
theorem mem_insertedPlayers_iff (D cur : List Player) (q : Player) :
    q ∈ insertedPlayers D cur ↔
      ∃ d ∈ D, (∀ p ∈ cur, ¬ p.id = d.id) ∧ q = insertedPlayerRow d := by
  simp only [insertedPlayers, List.mem_map, List.mem_filter,
    Option.isNone_iff_eq_none, List.find?_eq_none, decide_eq_true_eq]
  constructor
  · rintro ⟨d, ⟨hd, hnone⟩, hq⟩
    exact ⟨d, hd, hnone, hq.symm⟩
  · rintro ⟨d, hd, hnone, hq⟩
    exact ⟨d, ⟨hd, hnone⟩, hq.symm⟩

/-- Evaluation of `get_all_players` on a game with at least one stored player:
the hydrated current list. -/
theorem get_all_players_of_ne (g : String) (s : DBState)
    (h : ¬ s.players.filter (fun p => p.game_id = g) = []) :
    get_all_players (some g) s =
      .ok ((s.players.filter (fun p => p.game_id = g)).map
        (hydratePlayer s)) := by
  cases hl : s.players.filter (fun p => p.game_id = g) with
  | nil => exact absurd hl h
  | cons a t => simp [get_all_players, hl]

/-- C4. For every game with a non-empty current player set and every
present non-empty desired list `D` whose players carry the game's id:
after `update_players_in_game` succeeds, the id-set of the stored players
of the game equals `(current ∩ D) ∪ (D \ current)` (matched by id); every
current player absent from `D` is deleted; every desired player absent
from the current set is inserted; players present in both sets keep their
row byte-for-byte (no partial update); and no other table is touched. -/
theorem c4_player_reconciliation (dto : UpdateGameDTO) (s : DBState)
    (D : List Player) (hD : dto.players = some D) (hne : D ≠ [])
    (hgame : ∀ d ∈ D, d.game_id = dto.id)
    (hnonempty : ¬ s.players.filter (fun p => p.game_id = dto.id) = []) :
    ∃ s', update_players_in_game dto s =
        (.ok ((s.players.filter (fun p => p.game_id = dto.id)).map
          (hydratePlayer s)), s') ∧
      s'.claims = s.claims ∧ s'.chats = s.chats ∧
      s'.messages = s.messages ∧ s'.cards = s.cards ∧
      (∀ p ∈ s.players, p.game_id = dto.id → (∃ d ∈ D, d.id = p.id) →
        p ∈ s'.players) ∧
      (∀ p ∈ s.players, p.game_id = dto.id →
        ¬ (∃ d ∈ D, d.id = p.id) → ∀ q ∈ s'.players, ¬ q.id = p.id) ∧
      (∀ d ∈ D, ¬ (∃ p ∈ s.players, p.game_id = dto.id ∧ p.id = d.id) →
        ∃ q ∈ s'.players, q.id = d.id ∧ q.game_id = dto.id) ∧
      (∀ x : String,
        (∃ q ∈ s'.players, q.game_id = dto.id ∧ q.id = x) ↔
        (((∃ p ∈ s.players, p.game_id = dto.id ∧ p.id = x) ∧
           (∃ d ∈ D, d.id = x)) ∨
         ((∃ d ∈ D, d.id = x) ∧
           ¬ (∃ p ∈ s.players, p.game_id = dto.id ∧ p.id = x)))) := by
  have hne' : ¬ D.length = 0 := by
    simpa [List.length_eq_zero] using hne
  have hcur := get_all_players_of_ne dto.id s hnonempty
  set cur : List Player :=
    (s.players.filter (fun p => p.game_id = dto.id)).map (hydratePlayer s)
    with hcurdef
  have hrun := update_players_run dto s D cur hD hne' hcur
  have hcur_mem : ∀ p' : Player, p' ∈ cur ↔
      ∃ p ∈ s.players, p.game_id = dto.id ∧ hydratePlayer s p = p' := by
    intro p'
    rw [hcurdef]
    simp only [List.mem_map, List.mem_filter, decide_eq_true_eq]
    constructor
    · rintro ⟨p, ⟨hp, hpg⟩, hh⟩
      exact ⟨p, hp, hpg, hh⟩
    · rintro ⟨p, hp, hpg, hh⟩
      exact ⟨p, ⟨hp, hpg⟩, hh⟩
  have hkeep : ∀ p ∈ s.players, p.game_id = dto.id →
      (∃ d ∈ D, d.id = p.id) →
      p ∈ s.players.filter (playerShouldSurvive cur D) ++
        insertedPlayers D cur := by
    intro p hp hpg ⟨d, hd, hdid⟩
    refine List.mem_append.mpr (Or.inl ?_)
    rw [List.mem_filter]
    refine ⟨hp, (playerShouldSurvive_iff cur D p).mpr ?_⟩
    intro p' hp' hid
    exact ⟨d, hd, by rw [hdid, hid]⟩
  have hdel : ∀ p ∈ s.players, p.game_id = dto.id →
      ¬ (∃ d ∈ D, d.id = p.id) →
      ∀ q ∈ s.players.filter (playerShouldSurvive cur D) ++
        insertedPlayers D cur, ¬ q.id = p.id := by
    intro p hp hpg hnod q hq hqid
    have hpcur : hydratePlayer s p ∈ cur :=
      (hcur_mem (hydratePlayer s p)).mpr ⟨p, hp, hpg, rfl⟩
    cases List.mem_append.mp hq with
    | inl hqf =>
      rw [List.mem_filter] at hqf
      obtain ⟨d, hd, hdid⟩ :=
        (playerShouldSurvive_iff cur D q).mp hqf.2 (hydratePlayer s p)
          hpcur hqid
      exact hnod ⟨d, hd, hdid⟩
    | inr hqi =>
      obtain ⟨d, hd, hnonecur, hqrow⟩ :=
        (mem_insertedPlayers_iff D cur q).mp hqi
      have : q.id = d.id := by rw [hqrow]; rfl
      exact hnonecur (hydratePlayer s p) hpcur (by
        show (hydratePlayer s p).id = d.id
        rw [show (hydratePlayer s p).id = p.id from rfl, ← hqid, this])
  have hins : ∀ d ∈ D,
      ¬ (∃ p ∈ s.players, p.game_id = dto.id ∧ p.id = d.id) →
      ∃ q ∈ s.players.filter (playerShouldSurvive cur D) ++
        insertedPlayers D cur, q.id = d.id ∧ q.game_id = dto.id := by
    intro d hd hno
    refine ⟨insertedPlayerRow d, List.mem_append.mpr (Or.inr ?_),
      rfl, hgame d hd⟩
    refine (mem_insertedPlayers_iff D cur (insertedPlayerRow d)).mpr
      ⟨d, hd, ?_, rfl⟩
    intro p' hp' hpid
    obtain ⟨p, hp, hpg, hh⟩ := (hcur_mem p').mp hp'
    have hpid' : p.id = p'.id := by rw [← hh]; rfl
    exact hno ⟨p, hp, hpg, by rw [hpid', hpid]⟩
  refine ⟨_, hrun, rfl, rfl, rfl, rfl, hkeep, hdel, hins, ?_⟩
  intro x
  constructor
  · rintro ⟨q, hq, hqg, hqx⟩
    cases List.mem_append.mp hq with
    | inl hqf =>
      rw [List.mem_filter] at hqf
      have hqcur : hydratePlayer s q ∈ cur :=
        (hcur_mem (hydratePlayer s q)).mpr ⟨q, hqf.1, hqg, rfl⟩
      obtain ⟨d, hd, hdid⟩ :=
        (playerShouldSurvive_iff cur D q).mp hqf.2 (hydratePlayer s q)
          hqcur rfl
      exact Or.inl ⟨⟨q, hqf.1, hqg, hqx⟩, ⟨d, hd, by rw [hdid, ← hqx]; rfl⟩⟩
    | inr hqi =>
      obtain ⟨d, hd, _, hqrow⟩ :=
        (mem_insertedPlayers_iff D cur q).mp hqi
      have hdx : d.id = x := by rw [← hqx, hqrow]; rfl
      by_cases hex : ∃ p ∈ s.players, p.game_id = dto.id ∧ p.id = x
      · exact Or.inl ⟨hex, ⟨d, hd, hdx⟩⟩
      · exact Or.inr ⟨⟨d, hd, hdx⟩, hex⟩
  · rintro (⟨⟨p, hp, hpg, hpx⟩, ⟨d, hd, hdx⟩⟩ | ⟨⟨d, hd, hdx⟩, hno⟩)
    · exact ⟨p, hkeep p hp hpg ⟨d, hd, by rw [hdx, hpx]⟩, hpg, hpx⟩
    · obtain ⟨q, hq, hqid, hqg⟩ := hins d hd (by rw [hdx]; exact hno)
      exact ⟨q, hq, hqg, by rw [hqid, hdx]⟩

/-- C4 witness. The theorem applied at a concrete game: current
`{P1}`, desired `[P2]` — `P1` is deleted, `P2` inserted. -/
theorem c4_player_reconciliation_witness :
    ∃ s', update_players_in_game fixDtoPlayers fixPlayerState =
        (.ok ((fixPlayerState.players.filter
          (fun p => p.game_id = fixDtoPlayers.id)).map
          (hydratePlayer fixPlayerState)), s') ∧
      s'.claims = fixPlayerState.claims ∧
      s'.chats = fixPlayerState.chats ∧
      s'.messages = fixPlayerState.messages ∧
      s'.cards = fixPlayerState.cards ∧
      (∀ p ∈ fixPlayerState.players, p.game_id = fixDtoPlayers.id →
        (∃ d ∈ [fixPlayer2], d.id = p.id) → p ∈ s'.players) ∧
      (∀ p ∈ fixPlayerState.players, p.game_id = fixDtoPlayers.id →
        ¬ (∃ d ∈ [fixPlayer2], d.id = p.id) →
        ∀ q ∈ s'.players, ¬ q.id = p.id) ∧
      (∀ d ∈ [fixPlayer2],
        ¬ (∃ p ∈ fixPlayerState.players,
          p.game_id = fixDtoPlayers.id ∧ p.id = d.id) →
        ∃ q ∈ s'.players, q.id = d.id ∧ q.game_id = fixDtoPlayers.id) ∧
      (∀ x : String,
        (∃ q ∈ s'.players, q.game_id = fixDtoPlayers.id ∧ q.id = x) ↔
        (((∃ p ∈ fixPlayerState.players,
            p.game_id = fixDtoPlayers.id ∧ p.id = x) ∧
           (∃ d ∈ [fixPlayer2], d.id = x)) ∨
         ((∃ d ∈ [fixPlayer2], d.id = x) ∧
           ¬ (∃ p ∈ fixPlayerState.players,
             p.game_id = fixDtoPlayers.id ∧ p.id = x)))) :=
  c4_player_reconciliation fixDtoPlayers fixPlayerState [fixPlayer2]
    rfl (by decide) (by decide) (by decide)

end LueLue
